import Mathlib

/-!
# Shopify ↔ Printoteca order gateway: a shallow embedding

This file embeds the order-synchronization core of the gateway
(`src/shopify.js`, `src/printoteca.js`, `src/tracking.js`, `src/index.js`
and the unnamed Shopify fulfillment helper) as executable Lean
definitions, and proves or refutes the specification's claims about it.

Conventions of the embedding:
* JavaScript strings are Lean `String`s; the JS string built-ins the code
  uses (`split`, `trim`, `startsWith`, `includes`, `toLowerCase`, `join`)
  are re-implemented below over `String.data` so that every definition
  evaluates inside the kernel.
* A JS value that may be `undefined`/`null` is an `Option`; where the code
  only ever distinguishes truthy from falsy strings, the empty string
  stands for the falsy case.
* Asynchronous external calls (Shopify admin API, Printoteca API) are
  modelled by explicit environments: a record of the responses the
  external system would give, with a `Bool`/`Except` per call site where
  the code observes success or failure.  Timer-based scheduling
  (`setTimeout`) is modelled by counting the delays awaited/scheduled.
* Dates are epoch milliseconds (`Int`); elapsed-day arithmetic is exact
  rational arithmetic, matching JS float division on the values at issue.
-/

/-! ## JS string primitives -/

/-- Lower-casing of one ASCII character (`String.prototype.toLowerCase`
restricted to the ASCII statuses the gateway compares). -/
def charToLower (c : Char) : Char :=
  if 'A' ≤ c ∧ c ≤ 'Z' then Char.ofNat (c.toNat + 32) else c

/-- JS `s.toLowerCase()`. -/
def jsToLower (s : String) : String := ⟨s.data.map charToLower⟩

/-- JS `s.trim()`: whitespace stripped from both ends. -/
def jsTrim (s : String) : String :=
  ⟨((s.data.dropWhile (·.isWhitespace)).reverse.dropWhile (·.isWhitespace)).reverse⟩

/-- JS `s.split(sep)` over the character list, for a one-character
separator: the list of (possibly empty) pieces between occurrences. -/
def splitOnChar (sep : Char) : List Char → List (List Char)
  | [] => [[]]
  | c :: cs =>
    let rest := splitOnChar sep cs
    if c = sep then [] :: rest
    else
      match rest with
      | [] => [[c]]
      | r :: rs => (c :: r) :: rs

/-- Whether `pre` is an initial segment of `s` (JS `s.startsWith(pre)`),
over character lists. -/
def charsLeadWith : List Char → List Char → Bool
  | [], _ => true
  | _ :: _, [] => false
  | p :: ps, c :: cs => p = c && charsLeadWith ps cs

/-- JS `s.startsWith(pre)`. -/
def jsStartsWith (s pre : String) : Bool := charsLeadWith pre.data s.data

/-- Whether `pat` occurs as a contiguous run inside the character list. -/
def charsContain (pat : List Char) : List Char → Bool
  | [] => decide (pat = [])
  | c :: cs => charsLeadWith pat (c :: cs) || charsContain pat cs

/-- JS `s.includes(pat)`. -/
def jsIncludes (s pat : String) : Bool :=
  decide (pat = "") || charsContain pat.data s.data

/-- JS `array.join(sep)` for an array of strings. -/
def joinWithSep (sep : String) : List String → String
  | [] => ""
  | [t] => t
  | t :: t' :: ts => t ++ sep ++ joinWithSep sep (t' :: ts)

/-- JS `Array.from(new Set(xs))`: duplicates dropped, first occurrence
kept, insertion order preserved.  `seen` accumulates what the set already
holds. -/
def dedupeSeen (seen : List String) : List String → List String
  | [] => []
  | x :: xs => if x ∈ seen then dedupeSeen seen xs else x :: dedupeSeen (x :: seen) xs

/-- `Array.from(new Set(xs))` with an empty initial set. -/
def dedupeFirst (xs : List String) : List String := dedupeSeen [] xs

theorem mem_dedupeSeen (a : String) :
    ∀ (l seen : List String), a ∈ dedupeSeen seen l ↔ a ∈ l ∧ a ∉ seen := by
  intro l
  induction l with
  | nil => intro seen; simp [dedupeSeen]
  | cons x xs ih =>
    intro seen
    by_cases hx : x ∈ seen
    · rw [dedupeSeen, if_pos hx, ih, List.mem_cons]
      constructor
      · rintro ⟨h1, h2⟩; exact ⟨Or.inr h1, h2⟩
      · rintro ⟨h1 | h1, h2⟩
        · exact absurd (h1 ▸ hx) h2
        · exact ⟨h1, h2⟩
    · rw [dedupeSeen, if_neg hx]
      simp only [List.mem_cons, ih]
      constructor
      · rintro (rfl | ⟨h1, h2⟩)
        · exact ⟨Or.inl rfl, hx⟩
        · refine ⟨Or.inr h1, fun hs => h2 (Or.inr hs)⟩
      · rintro ⟨rfl | h1, h2⟩
        · exact Or.inl rfl
        · by_cases hax : a = x
          · exact Or.inl hax
          · exact Or.inr ⟨h1, by simp [hax, h2]⟩

theorem mem_dedupeFirst (a : String) (l : List String) :
    a ∈ dedupeFirst l ↔ a ∈ l := by
  rw [dedupeFirst, mem_dedupeSeen]; simp

theorem dedupeSeen_nodup : ∀ (l seen : List String), (dedupeSeen seen l).Nodup := by
  intro l
  induction l with
  | nil => intro seen; simp [dedupeSeen]
  | cons x xs ih =>
    intro seen
    by_cases hx : x ∈ seen
    · rw [dedupeSeen, if_pos hx]; exact ih seen
    · rw [dedupeSeen, if_neg hx]
      refine List.nodup_cons.mpr ⟨fun hmem => ?_, ih (x :: seen)⟩
      have := (mem_dedupeSeen x xs (x :: seen)).mp hmem
      simp at this

theorem dedupeFirst_nodup (l : List String) : (dedupeFirst l).Nodup :=
  dedupeSeen_nodup l []

/-! ## `src/shopify.js`: tags, notes, metafields

The Shopify order pieces the gateway mutates.  `parseTags` and
`buildTagString` are the string half; the tagging operations read the
stored tag string, edit the parsed list and write the joined result back,
exactly as `addOrderTag` / `replacePodStatusTag` do. -/

/-- `parseTags` of `src/shopify.js`: split on commas, trim, drop empties
(`filter(Boolean)`); the falsy guard on the whole string comes first. -/
def parseTags (tagString : String) : List String :=
  if tagString = "" then []
  else ((splitOnChar ',' tagString.data).map (fun p => jsTrim ⟨p⟩)).filter (· ≠ "")

/-- `buildTagString` of `src/shopify.js`: `Array.from(new Set(tags)).join(', ')`. -/
def buildTagString (tags : List String) : String :=
  joinWithSep ", " (dedupeFirst tags)

/-- The mutable Shopify-side order state the gateway touches: the
comma-joined tag string, the note log (modelled as the list of appended
messages) and the `pod.printoteca_order_id` metafield. -/
structure ShopState where
  tagString : String
  notes : List String
  printotecaOrderId : Option String
deriving DecidableEq, Repr

/-- The tag list `addOrderTag` writes back, given the parsed current tags:
push `newTag` unless already present (dedup happens in `buildTagString`). -/
def addOrderTagTags (tags : List String) (newTag : String) : List String :=
  if newTag ∈ tags then tags else tags ++ [newTag]

/-- `addOrderTag` of `src/shopify.js` as a state update. -/
def addOrderTag (s : ShopState) (newTag : String) : ShopState :=
  { s with tagString := buildTagString (addOrderTagTags (parseTags s.tagString) newTag) }

/-- The tag list `replacePodStatusTag` writes back: every tag with the
`POD:` prefix is removed, then the new tag (when one is given) appended. -/
def replacePodStatusTagTags (tags : List String) (newPodTag : Option String) : List String :=
  let kept := tags.filter (fun tag => !jsStartsWith tag "POD:")
  match newPodTag with
  | some t => kept ++ [t]
  | none => kept

/-- `replacePodStatusTag` of `src/shopify.js` as a state update. -/
def replacePodStatusTag (s : ShopState) (newPodTag : Option String) : ShopState :=
  { s with tagString := buildTagString (replacePodStatusTagTags (parseTags s.tagString) newPodTag) }

/-- `appendOrderNote` of `src/shopify.js`: the note log grows by one entry
(the timestamp prefix the source adds carries no information the claims
touch and is omitted). -/
def appendOrderNote (s : ShopState) (note : String) : ShopState :=
  { s with notes := s.notes ++ [note] }

/-- `setPrintotecaOrderIdMetafield` of `src/shopify.js`:
create-or-update of the `pod.printoteca_order_id` metafield. -/
def setPrintotecaOrderIdMetafield (s : ShopState) (printotecaId : String) : ShopState :=
  { s with printotecaOrderId := some printotecaId }

/-! ## `src/printoteca.js`: data model and configuration -/

/-- One entry of a Shopify line item's free-form `properties` array.  A JS
entry whose `name`/`value` is missing behaves exactly like the empty
string in every check the code makes, so both are plain strings here. -/
structure LiProp where
  name : String
  value : String
deriving DecidableEq, Repr

/-- A Shopify order line item (the fields the gateway reads). A missing
SKU is the empty string (falsy in every check the code makes). -/
structure LineItem where
  sku : String
  title : String
  variant_title : String
  quantity : Nat
  price : String
  properties : List LiProp
deriving DecidableEq, Repr

/-- A Shopify address; absent subfields are the empty string, which is
what the `|| ''` defaulting in the source turns them into. -/
structure ShopifyAddress where
  first_name : String
  last_name : String
  company : String
  address1 : String
  address2 : String
  city : String
  province : String
  zip : String
  country : String
  phone : String
deriving DecidableEq, Repr

/-- The `{}` fallback of `order.shipping_address || order.billing_address || {}`. -/
def emptyShopifyAddress : ShopifyAddress :=
  ⟨"", "", "", "", "", "", "", "", "", ""⟩

/-- The storefront order as the webhook delivers it (fields read by the
gateway).  Ids are strings: the code only ever interpolates them into
strings. -/
structure ShopifyOrder where
  id : String
  phone : String
  line_items : List LineItem
  shipping_address : Option ShopifyAddress
  billing_address : Option ShopifyAddress
deriving DecidableEq, Repr

/-- The environment-derived configuration of `src/printoteca.js`
(`PRINTOTECA_MAX_ATTEMPTS`, `PRINTOTECA_RETRY_DELAY_MS`,
`PRINTOTECA_BRAND_NAME`, `DEFAULT_SHIPPING_METHOD`,
`VALID_PRINTOTECA_SKUS`). -/
structure PrintotecaConfig where
  maxAttempts : Nat
  retryDelayMs : Nat
  brandName : Option String
  defaultShippingMethod : Option String
  validSkus : List String
deriving DecidableEq, Repr

/-! ## SKU validation (`isValidPrintotecaSku`, `splitValidInvalidPrintotecaLineItems`) -/

/-- `isValidPrintotecaSku`: a falsy SKU is invalid; an empty allow-list
disables validation; otherwise membership decides. -/
def isValidPrintotecaSku (cfg : PrintotecaConfig) (sku : String) : Bool :=
  if sku = "" then false
  else if cfg.validSkus.isEmpty then true
  else cfg.validSkus.contains sku

/-- `splitValidInvalidPrintotecaLineItems`: partition the order's line
items, keeping order; an invalid item contributes its SKU (or
`"(no SKU)"` when falsy) to the second component. -/
def splitValidInvalidPrintotecaLineItems (cfg : PrintotecaConfig) (order : ShopifyOrder) :
    List LineItem × List String :=
  go order.line_items
where
  go : List LineItem → List LineItem × List String
    | [] => ([], [])
    | li :: rest =>
      let (v, inv) := go rest
      if isValidPrintotecaSku cfg li.sku then (li :: v, inv)
      else (v, (if li.sku = "" then "(no SKU)" else li.sku) :: inv)

/-! ## Payload construction (`extractTeeinblueDesignLink`,
`buildPrintotecaOrderPayloadFromShopify`) -/

/-- The design URLs of an outbound item, by placement side. -/
structure Designs where
  front : Option String
  back : Option String
deriving DecidableEq, Repr

/-- One item of the outbound Printoteca payload. -/
structure PayloadItem where
  pn : String
  title : String
  quantity : Nat
  retailPrice : String
  description : String
  designs : Option Designs
deriving DecidableEq, Repr

/-- The Printoteca shipping address (all fields defaulted to `""`). -/
structure PrintotecaAddress where
  firstName : String
  lastName : String
  company : String
  address1 : String
  address2 : String
  city : String
  county : String
  postcode : String
  country : String
  phone1 : String
  phone2 : String
  phone3 : String
  vatNumber : String
deriving DecidableEq, Repr

/-- The `shipping` sub-object of the payload. -/
structure ShippingOpts where
  shippingMethod : Option String
deriving DecidableEq, Repr

/-- The outbound order-creation payload. -/
structure PrintotecaPayload where
  brandName : Option String
  shipping_address : PrintotecaAddress
  items : List PayloadItem
  shipping : Option ShippingOpts
  external_id : Option String
deriving DecidableEq, Repr

/-- JS `a || b` on strings: the first truthy (non-empty) operand. -/
def jsOr (a b : String) : String := if a = "" then b else a

/-- `extractTeeinblueDesignLink`: the first property named exactly
`_tib_design_link` with a truthy value, if any. -/
def extractTeeinblueDesignLink (li : LineItem) : Option String :=
  (li.properties.find? (fun p => p.name == "_tib_design_link" && p.value != "")).map (·.value)

/-- The description the payload builder assembles: variant title, then
every public (`_`-free, truthy) property as `name: value`, joined by
`" | "`. -/
def buildItemDescription (li : LineItem) : String :=
  let descParts :=
    (if li.variant_title = "" then [] else [li.variant_title]) ++
      li.properties.filterMap (fun p =>
        if p.name = "" then none
        else if jsStartsWith p.name "_" then none
        else if p.value = "" then none
        else some (p.name ++ ": " ++ p.value))
  joinWithSep " | " descParts

/-- One outbound item as `buildPrintotecaOrderPayloadFromShopify` maps a
line item: the `designs` key is present only when a design link was
extracted, and then carries only the `front` side. -/
def buildPayloadItem (li : LineItem) : PayloadItem :=
  { pn := li.sku
    title := li.title
    quantity := li.quantity
    retailPrice := li.price
    description := buildItemDescription li
    designs := (extractTeeinblueDesignLink li).map (fun url => ⟨some url, none⟩) }

/-- `buildPrintotecaOrderPayloadFromShopify`: address (shipping falling
back to billing, then `{}`), items from the override (or all line items),
brand from configuration; `shipping` and `external_id` are left unset for
`sendOrderToPrintotecaWithRetry` to fill. -/
def buildPrintotecaOrderPayloadFromShopify (cfg : PrintotecaConfig) (order : ShopifyOrder)
    (validLineItemsOverride : Option (List LineItem)) : PrintotecaPayload :=
  let shipping := (order.shipping_address.orElse (fun _ => order.billing_address)).getD
    emptyShopifyAddress
  let shippingAddress : PrintotecaAddress :=
    { firstName := shipping.first_name
      lastName := shipping.last_name
      company := shipping.company
      address1 := shipping.address1
      address2 := shipping.address2
      city := shipping.city
      county := shipping.province
      postcode := shipping.zip
      country := shipping.country
      phone1 := jsOr shipping.phone order.phone
      phone2 := ""
      phone3 := ""
      vatNumber := "" }
  let lineItems := validLineItemsOverride.getD order.line_items
  { brandName := cfg.brandName
    shipping_address := shippingAddress
    items := lineItems.map buildPayloadItem
    shipping := none
    external_id := none }

/-! ## The Printoteca call environment

`create` is the response `printotecaPost('/api/orders.php', payload)`
would produce on the given attempt: an error message (as
`extractPrintotecaErrorMessage` extracts it), or a successful response
whose probed id (`data.id || data.order.id`) may still be absent.  The
Shopify flags say whether the tag / note writes succeed; the code
observes nothing else about them. -/
structure ShopifyEnv where
  tagOk : Bool
  noteOk : Bool
deriving DecidableEq, Repr

structure CreateEnv where
  create : Nat → PrintotecaPayload → Except String (Option String)
  shop : ShopifyEnv

/-- `handlePrintotecaSupplierError` of `src/printoteca.js`: tag
`POD: supplier error` and append the extracted message as a note; each of
the two writes swallows its own failure. -/
def handlePrintotecaSupplierError (shop : ShopifyEnv) (s : ShopState) (message : String) :
    ShopState :=
  let s1 := if shop.tagOk then addOrderTag s "POD: supplier error" else s
  if shop.noteOk then appendOrderNote s1 ("Printoteca error: " ++ message) else s1

deriving instance DecidableEq for Except

/-- What one run of the retry loop did: the Shopify state it left, how
many `printotecaPost` create calls it made, how many fixed-delay waits it
performed between attempts, and the returned id or the error it threw. -/
structure RetryTrace where
  state : ShopState
  createCalls : Nat
  sleeps : Nat
  result : Except String String
deriving DecidableEq, Repr

/-- The error message the loop raises when the create response carries no
id under `data.id` or `data.order.id`. -/
def noIdMessage : String := "Printoteca response did not contain id"

/-- The `for (attempt = 1; attempt <= PRINTOTECA_MAX_ATTEMPTS; ...)` loop
of `sendOrderToPrintotecaWithRetry`.  `fuel` counts the attempts still
allowed including the current one (`fuel = maxAttempts + 1 - attempt`),
so `attempt < PRINTOTECA_MAX_ATTEMPTS` is `fuel ≠ 1`; at `fuel = 0` the
loop is over and the last error is surfaced (with no attempts at all the
loop falls through with `lastError` undefined, which
`extractPrintotecaErrorMessage` renders `"Unknown error"`). On success
the returned id is saved to the `pod.printoteca_order_id` metafield. -/
def sendAttempts (env : CreateEnv) (payload : PrintotecaPayload) :
    Nat → Nat → ShopState → Nat → Nat → RetryTrace
  | 0, _, s, calls, sleeps =>
    { state := handlePrintotecaSupplierError env.shop s "Unknown error",
      createCalls := calls, sleeps := sleeps, result := .error "Unknown error" }
  | fuel + 1, attempt, s, calls, sleeps =>
    let attemptResult : Except String String :=
      match env.create attempt payload with
      | .ok (some printotecaId) => .ok printotecaId
      | .ok none => .error noIdMessage
      | .error msg => .error msg
    match attemptResult with
    | .ok printotecaId =>
      { state := setPrintotecaOrderIdMetafield s printotecaId,
        createCalls := calls + 1, sleeps := sleeps, result := .ok printotecaId }
    | .error msg =>
      if fuel = 0 then
        { state := handlePrintotecaSupplierError env.shop s msg,
          createCalls := calls + 1, sleeps := sleeps, result := .error msg }
      else
        sendAttempts env payload fuel (attempt + 1) s (calls + 1) (sleeps + 1)

/-- `sendOrderToPrintotecaWithRetry` of `src/printoteca.js`: finalize the
payload the build function produced (brand, shipping method, correlation
id `shopify:<order.id>`) and run the attempt loop.  The payload is a pure
function of the order, so computing it once equals the source's
rebuilding it each attempt. -/
def finalizePrintotecaPayload (cfg : PrintotecaConfig) (order : ShopifyOrder)
    (validLineItemsOverride : Option (List LineItem)) : PrintotecaPayload :=
  let payload := buildPrintotecaOrderPayloadFromShopify cfg order validLineItemsOverride
  let sh := payload.shipping.getD ⟨none⟩
  { payload with
      brandName := payload.brandName.orElse (fun _ => cfg.brandName)
      shipping := some ⟨some ((sh.shippingMethod.orElse
        (fun _ => cfg.defaultShippingMethod)).getD "regular")⟩
      external_id := some (payload.external_id.getD ("shopify:" ++ order.id)) }

def sendOrderToPrintotecaWithRetry (cfg : PrintotecaConfig) (env : CreateEnv)
    (order : ShopifyOrder) (validLineItemsOverride : Option (List LineItem))
    (s : ShopState) : RetryTrace :=
  sendAttempts env (finalizePrintotecaPayload cfg order validLineItemsOverride)
    cfg.maxAttempts 1 s 0 0

/-- What `sendOrderToPrintoteca` resolved to: the `null` skip outcome for
an order with no valid line items, the created supplier order's id, or
the error it rethrew after surfacing. -/
inductive SubmitOutcome
  | noItems
  | sent (printotecaId : String)
  | failed (message : String)
deriving DecidableEq, Repr

/-- A full run of the submit path: final Shopify state, create-call and
delay counts, outcome. -/
structure SubmitTrace where
  state : ShopState
  createCalls : Nat
  sleeps : Nat
  outcome : SubmitOutcome
deriving DecidableEq, Repr

/-- `sendOrderToPrintoteca` of `src/printoteca.js`: split the line items
by SKU validity, return `null` (here `.noItems`) when none is valid, tag
`POD: unknown SKU` and note the skipped SKUs when some are invalid (one
`try` block: a failing tag write skips the note, and both failures are
swallowed), then hand the valid items to the retry loop. -/
def sendOrderToPrintoteca (cfg : PrintotecaConfig) (env : CreateEnv)
    (order : ShopifyOrder) (s : ShopState) : SubmitTrace :=
  let split := splitValidInvalidPrintotecaLineItems cfg order
  let validLineItems := split.1
  let invalidSkus := split.2
  if validLineItems.isEmpty then
    { state := s, createCalls := 0, sleeps := 0, outcome := .noItems }
  else
    let s1 :=
      if invalidSkus.isEmpty then s
      else if env.shop.tagOk then
        let st := addOrderTag s "POD: unknown SKU"
        if env.shop.noteOk then
          appendOrderNote st
            ("Printoteca: these SKUs are not configured for Printoteca and were skipped: " ++
              joinWithSep ", " invalidSkus)
        else st
      else s
    let r := sendOrderToPrintotecaWithRetry cfg env order (some validLineItems) s1
    { state := r.state, createCalls := r.createCalls, sleeps := r.sleeps,
      outcome := match r.result with | .ok pid => .sent pid | .error m => .failed m }

/-! ## The supplier-side order record

The fields of a Printoteca order that `src/tracking.js` and the
cancellation path read.  Timestamps are epoch milliseconds; an absent or
falsy field is `none` (for the status string, `""`, matching the
`(order.status || '')` default). -/

structure PrintotecaShipping where
  trackingNumber : String
  shiped_at : Option Int
  shipped_at : Option Int
deriving DecidableEq, Repr

/-- The `{trackingNumber := "", shiped_at := none, shipped_at := none}`
fallback of `printotecaOrder.shipping || {}`. -/
def emptyPrintotecaShipping : PrintotecaShipping := ⟨"", none, none⟩

structure PrintotecaSummary where
  shippingPrice : Option String
  currency : Option String
deriving DecidableEq, Repr

structure PrintotecaOrder where
  id : String
  external_id : Option String
  externalId : Option String
  status : String
  shipping : Option PrintotecaShipping
  summary : Option PrintotecaSummary
deriving DecidableEq, Repr

/-! ## `cancelPrintotecaOrderFromShopifyOrderId` of `src/printoteca.js` -/

/-- The external responses one cancellation run observes: the metafield
read, the pre-delete fetch, the delete call, and whether the Shopify
tag/note writes succeed. -/
structure CancelEnv where
  metafield : Except String (Option String)
  fetchOrder : Except String PrintotecaOrder
  deleteResult : Except String Unit
  shop : ShopifyEnv
deriving Repr

/-- What a cancellation run did: the Shopify state it left, how many
`deletePrintotecaOrder` calls it made, and the exception (if any) that
escaped the function to its caller. -/
structure CancelTrace where
  state : ShopState
  deleteCalls : Nat
  escaped : Option String
deriving DecidableEq, Repr

def cancelNoLinkageNote : String :=
  "Printoteca: cancellation webhook received but no pod.printoteca_order_id metafield was found. Cancel manually in Printoteca if needed."

/-- The message of a failed Shopify note write (the model's rendering of
the axios error the admin-API client would raise). -/
def shopifyNoteFailMessage : String := "Shopify note update failed"

/-- The message of a failed Shopify tag write. -/
def shopifyTagFailMessage : String := "Shopify tag update failed"

def cancelWarnNote (printotecaId : String) (shippedAt : Int) : String :=
  "Printoteca: order " ++ printotecaId ++ " already shipped at " ++ toString shippedAt ++
    ", API cancel may not be possible."

def cancelConfirmNote (printotecaId : String) : String :=
  "Printoteca: order " ++ printotecaId ++ " cancelled via API because Shopify order was cancelled."

/-- `cancelPrintotecaOrderFromShopifyOrderId`: resolve the linkage
metafield (a failed read propagates); without a linkage append an
informational note and stop; otherwise fetch the order (failure only
logged), warn by note when it records a `shiped_at`, then
`try { delete; tag; note } catch { handlePrintotecaSupplierError }` —
failures inside that block never escape.  The unguarded note writes
propagate their failures, the guarded block's do not. -/
def cancelPrintotecaOrderFromShopifyOrderId (env : CancelEnv) (s : ShopState) : CancelTrace :=
  match env.metafield with
  | .error e => { state := s, deleteCalls := 0, escaped := some e }
  | .ok none =>
    if env.shop.noteOk then
      { state := appendOrderNote s cancelNoLinkageNote, deleteCalls := 0, escaped := none }
    else
      { state := s, deleteCalls := 0, escaped := some shopifyNoteFailMessage }
  | .ok (some printotecaId) =>
    let fetched : Option PrintotecaOrder :=
      match env.fetchOrder with
      | .ok o => some o
      | .error _ => none
    let shippedAt : Option Int := (fetched.bind (·.shipping)).bind (·.shiped_at)
    match shippedAt with
    | some t =>
      if env.shop.noteOk then
        cancelDeleteBlock env (appendOrderNote s (cancelWarnNote printotecaId t)) printotecaId
      else
        { state := s, deleteCalls := 0, escaped := some shopifyNoteFailMessage }
    | none => cancelDeleteBlock env s printotecaId
where
  /- The `try { delete; tag; note } catch { handle }` block; its result
  never carries an escaped exception. -/
  cancelDeleteBlock (env : CancelEnv) (s : ShopState) (printotecaId : String) : CancelTrace :=
    match env.deleteResult with
    | .ok _ =>
      if env.shop.tagOk then
        let s3 := addOrderTag s "POD: cancelled at supplier"
        if env.shop.noteOk then
          { state := appendOrderNote s3 (cancelConfirmNote printotecaId),
            deleteCalls := 1, escaped := none }
        else
          { state := handlePrintotecaSupplierError env.shop s3 shopifyNoteFailMessage,
            deleteCalls := 1, escaped := none }
      else
        { state := handlePrintotecaSupplierError env.shop s shopifyTagFailMessage,
          deleteCalls := 1, escaped := none }
    | .error e =>
      { state := handlePrintotecaSupplierError env.shop s e,
        deleteCalls := 1, escaped := none }

/-! ## `src/tracking.js`: status projection and bulk sweep -/

/-- `mapPrintotecaStatusToPodTag` of `src/tracking.js`: terminal statuses
first, then the tracking/ship-date branch (delivered at or past the
window, shipped below it), then the production statuses, else no tag. -/
def mapPrintotecaStatusToPodTag (windowDays : ℚ) (now : Int) (o : PrintotecaOrder) :
    Option String :=
  let status := jsToLower o.status
  let shipping := o.shipping.getD emptyPrintotecaShipping
  let hasTracking : Bool := shipping.trackingNumber != ""
  let shippedAt : Option Int := shipping.shiped_at.orElse (fun _ => shipping.shipped_at)
  if status = "refunded" then some "POD: refunded"
  else if status = "internal order query" then some "POD: on hold"
  else if hasTracking || shippedAt.isSome then
    match shippedAt with
    | some t =>
      let daysSince : ℚ := ((now - t : Int) : ℚ) / (1000 * 60 * 60 * 24)
      if daysSince ≥ windowDays then some "POD: delivered" else some "POD: shipped"
    | none => some "POD: shipped"
  else if (["stock allocation", "printing", "quality control"] : List String).contains status then
    some "POD: printing"
  else if (["received", "in progress", "paid"] : List String).contains status then
    some "POD: in production"
  else none

/-- The reference status-mapping policy, written from the specification's
words as a pure function of (status, tracking presence, ship timestamp,
now): refunded and internal-order-query first regardless of shipping
fields; else, with a tracking number or ship timestamp present, delivered
when a ship timestamp is present and the elapsed days since it reach the
configured window (boundary included), shipped otherwise; else the
printing group, the in-production group, or no tag.  The status argument
is the order's status in lower case (tag matching in the code is
case-insensitive). -/
def specPodTagPolicy (windowDays : ℚ) (now : Int) (status : String) (hasTracking : Bool)
    (shipTimestamp : Option Int) : Option String :=
  if status = "refunded" then some "POD: refunded"
  else if status = "internal order query" then some "POD: on hold"
  else if hasTracking || shipTimestamp.isSome then
    match shipTimestamp with
    | some t =>
      if ((now - t : Int) : ℚ) / (1000 * 60 * 60 * 24) ≥ windowDays then some "POD: delivered"
      else some "POD: shipped"
    | none => some "POD: shipped"
  else if (["stock allocation", "printing", "quality control"] : List String).contains status then
    some "POD: printing"
  else if (["received", "in progress", "paid"] : List String).contains status then
    some "POD: in production"
  else none

/-- `syncRecentPrintotecaOrders` of `src/tracking.js`, over the window's
supplier orders as one list the supplier pages by 50
(`page n = orders.drop ((n-1)*50) |>.take 50`).  `projectApplied o = true`
when `applyPrintotecaOrderToShopify o` returns, `false` when it throws
(the `catch` counts it in `errors`).  Returns
(synced, errors, pages fetched): an empty page stops before processing, a
short page stops after processing, a full page fetches the next one. -/
def syncSweepGo (projectApplied : PrintotecaOrder → Bool) (remaining : List PrintotecaOrder) :
    Nat × Nat × Nat :=
  if (remaining.take 50).length = 0 then (0, 0, 1)
  else if (remaining.take 50).length < 50 then
    ((remaining.take 50).countP projectApplied,
      (remaining.take 50).countP (fun o => !projectApplied o), 1)
  else
    let rest := syncSweepGo projectApplied (remaining.drop 50)
    ((remaining.take 50).countP projectApplied + rest.1,
      (remaining.take 50).countP (fun o => !projectApplied o) + rest.2.1,
      rest.2.2 + 1)
termination_by remaining.length
decreasing_by
  simp only [List.length_take, List.length_drop] at *
  omega

/-- The sweep's result as the endpoint reports it: `{synced, errors}`
(plus, for the pagination statement, how many pages were fetched). -/
def syncRecentPrintotecaOrders (projectApplied : PrintotecaOrder → Bool)
    (windowOrders : List PrintotecaOrder) : Nat × Nat × Nat :=
  syncSweepGo projectApplied windowOrders

/-! ## The retry driver of `src/index.js` (`sendOrderToPrintotecaWithRetry`) -/

/-- The error-message signature the driver classifies as "design asset
not generated yet". -/
def designNotReadySignature : String := "Design url is not valid"

/-- What the webhook-triggered driver did: how many times it invoked the
inner send, how many retries it scheduled via `setTimeout`, and the error
message it gave up on (if any). -/
structure IndexRetryTrace where
  attemptsMade : Nat
  retriesScheduled : Nat
  finalError : Option String
deriving DecidableEq, Repr

/-- The recursive driver of `src/index.js`: on failure, schedule another
attempt after the fixed delay only when the message contains the
signature and attempts remain (`isDesignUrlError && attempt < maxAttempts`,
i.e. `retriesLeft ≠ 0` with `retriesLeft = maxAttempts - attempt`; at
`retriesLeft = 0` the conjunction is false whatever the message, so the
0-case folds the short-circuit). -/
def indexRetryGo (inner : Nat → Except String Unit) :
    Nat → Nat → IndexRetryTrace
  | 0, attempt =>
    match inner attempt with
    | .ok _ => ⟨1, 0, none⟩
    | .error msg => ⟨1, 0, some msg⟩
  | r + 1, attempt =>
    match inner attempt with
    | .ok _ => ⟨1, 0, none⟩
    | .error msg =>
      if jsIncludes msg designNotReadySignature then
        let rest := indexRetryGo inner r (attempt + 1)
        ⟨rest.attemptsMade + 1, rest.retriesScheduled + 1, rest.finalError⟩
      else ⟨1, 0, some msg⟩

/-- `sendOrderToPrintotecaWithRetry` of `src/index.js`, started at
attempt 1 as the paid-order webhook does. -/
def sendOrderToPrintotecaWithRetryIndex (maxAttempts : Nat)
    (inner : Nat → Except String Unit) : IndexRetryTrace :=
  indexRetryGo inner (maxAttempts - 1) 1

/-! ## `ensureFulfillmentWithTracking` (the unnamed Shopify helper)

The Shopify order shape this helper fetches (`fields:
id,fulfillments,line_items,...`) and the Printoteca items it matches by
SKU. -/

/-- A line item as the fulfillment helper reads it. -/
structure FulfillLineItem where
  id : String
  sku : String
  quantity : Nat
deriving DecidableEq, Repr

/-- One `{id, quantity}` entry of a fulfillment's `line_items`. -/
structure FulfillLine where
  id : String
  quantity : Nat
deriving DecidableEq, Repr

/-- An existing (or created) Shopify fulfillment record. -/
structure ShopifyFulfillment where
  tracking_numbers : List String
  tracking_number : Option String
  tracking_company : String
  line_items : List FulfillLine
deriving DecidableEq, Repr

/-- The Shopify order as `getShopifyOrder` returns it to the helper. -/
structure FulfillOrder where
  id : String
  line_items : List FulfillLineItem
  fulfillments : List ShopifyFulfillment
deriving DecidableEq, Repr

/-- One item of the Printoteca order passed for SKU matching (`pn`,
`quantity`; a falsy `pn` is `""`, `Number(quantity) || 0` is the `Nat`). -/
structure PrintotecaItem where
  pn : String
  quantity : Nat
deriving DecidableEq, Repr

/-- `orderHasTracking`: some fulfillment record carries the tracking
number, either in its `tracking_numbers` array or as its single
`tracking_number`. -/
def orderHasTracking (order : FulfillOrder) (trackingNumber : String) : Bool :=
  order.fulfillments.any (fun f =>
    f.tracking_numbers.contains trackingNumber || f.tracking_number == some trackingNumber)

/-- The summed quantity the `skuQtyMap` of the helper holds for `sku`
(items with a falsy `pn` or zero quantity are skipped). -/
def skuQtyMapAt (printotecaItems : List PrintotecaItem) (sku : String) : Nat :=
  ((printotecaItems.filter (fun i => i.pn != "" && i.quantity != 0 && i.pn == sku)).map
    (·.quantity)).sum

/-- The matched `line_items` the helper builds when given Printoteca
items: each order line whose SKU the map holds, at
`min(li.quantity, skuQtyMap[sku])`, kept only when positive. -/
def matchedFulfillLines (order : FulfillOrder) (printotecaItems : List PrintotecaItem) :
    List FulfillLine :=
  order.line_items.filterMap (fun li =>
    if li.sku = "" then none
    else
      let mapped := skuQtyMapAt printotecaItems li.sku
      if mapped = 0 then none
      else
        let qtyToFulfill := min li.quantity mapped
        if qtyToFulfill = 0 then none else some ⟨li.id, qtyToFulfill⟩)

/-- The `lineItems` local of `createShopifyFulfillment`: an empty or
absent override falls back to fulfilling every line item of the order. -/
def fulfillmentLineItems (order : FulfillOrder)
    (lineItemsOverride : Option (List FulfillLine)) : List FulfillLine :=
  match lineItemsOverride with
  | some l => if l.isEmpty then order.line_items.map (fun li => ⟨li.id, li.quantity⟩) else l
  | none => order.line_items.map (fun li => ⟨li.id, li.quantity⟩)

/-- `createShopifyFulfillment`: with nothing to fulfill the call is
skipped (`null`), otherwise Shopify records a fulfillment carrying the
tracking number. -/
def createShopifyFulfillment (order : FulfillOrder) (trackingNumber trackingCompany : String)
    (lineItemsOverride : Option (List FulfillLine)) : Option ShopifyFulfillment :=
  if (fulfillmentLineItems order lineItemsOverride).isEmpty then none
  else some
    { tracking_numbers := [trackingNumber]
      tracking_number := some trackingNumber
      tracking_company := trackingCompany
      line_items := fulfillmentLineItems order lineItemsOverride }

/-- The helper's reported status. -/
inductive FulfillOutcome
  | alreadyExists
  | created (f : ShopifyFulfillment)
  | noItems
deriving DecidableEq, Repr

/-- The `lineItemsForFulfillment` local of `ensureFulfillmentWithTracking`:
the matched line list when Printoteca items were supplied (a `null` or
empty supply leaves it `null`). -/
def fulfillmentOverrideOf (order : FulfillOrder)
    (printotecaItems : Option (List PrintotecaItem)) : Option (List FulfillLine) :=
  match printotecaItems with
  | some items => if items.isEmpty then none else some (matchedFulfillLines order items)
  | none => none

/-- `ensureFulfillmentWithTracking`: skip when some existing fulfillment
already carries the tracking number; otherwise create the fulfillment
from the matched lines (or the whole order).  The returned order reflects
the fulfillment Shopify now stores. -/
def ensureFulfillmentWithTracking (order : FulfillOrder) (trackingNumber trackingCompany : String)
    (printotecaItems : Option (List PrintotecaItem)) : FulfillOutcome × FulfillOrder :=
  if orderHasTracking order trackingNumber then (.alreadyExists, order)
  else
    match createShopifyFulfillment order trackingNumber trackingCompany
        (fulfillmentOverrideOf order printotecaItems) with
    | none => (.noItems, order)
    | some f => (.created f, { order with fulfillments := order.fulfillments ++ [f] })

/-! ## Tag-string normal form and the parse/build round trip

`parseTags` output is in a normal form (nonempty, comma-free,
trim-invariant); on normal-form lists, `parseTags` inverts
`buildTagString` up to the deduplication `buildTagString` performs.
These facts let claims about the written tag *string* be settled through
the list the code assembled. -/

def TagNormal (t : String) : Prop := t ≠ "" ∧ ',' ∉ t.data ∧ jsTrim t = t

instance (t : String) : Decidable (TagNormal t) := by
  unfold TagNormal; infer_instance

theorem string_data_inj : ∀ {s t : String}, s.data = t.data → s = t := by
  intro s t h
  cases s; cases t; cases h; rfl

theorem splitOnChar_ne_nil (sep : Char) (cs : List Char) : splitOnChar sep cs ≠ [] := by
  induction cs with
  | nil => simp [splitOnChar]
  | cons c cs ih =>
    rw [splitOnChar]
    by_cases h : c = sep
    · simp [h]
    · simp only [if_neg h]
      cases hsp : splitOnChar sep cs with
      | nil => simp
      | cons r rs => simp

theorem splitOnChar_no_sep (sep : Char) :
    ∀ cs : List Char, sep ∉ cs → splitOnChar sep cs = [cs] := by
  intro cs
  induction cs with
  | nil => intro _; rfl
  | cons c cs ih =>
    intro h
    have hc : c ≠ sep := fun hc => h (hc ▸ List.mem_cons_self c cs)
    have hcs : sep ∉ cs := fun hm => h (List.mem_cons_of_mem c hm)
    rw [splitOnChar]
    simp only [if_neg (fun hcc => hc hcc), ih hcs]

theorem splitOnChar_append (sep : Char) :
    ∀ t rest : List Char, sep ∉ t →
      splitOnChar sep (t ++ sep :: rest) = t :: splitOnChar sep rest := by
  intro t
  induction t with
  | nil =>
    intro rest _
    simp [splitOnChar]
  | cons c t ih =>
    intro rest h
    have hc : c ≠ sep := fun hc => h (hc ▸ List.mem_cons_self c t)
    have ht : sep ∉ t := fun hm => h (List.mem_cons_of_mem c hm)
    rw [List.cons_append, splitOnChar]
    simp only [if_neg (fun hcc => hc hcc), ih rest ht]

theorem jsTrim_mk_cons_space (cs : List Char) : jsTrim ⟨' ' :: cs⟩ = jsTrim ⟨cs⟩ := by
  show jsTrim ⟨' ' :: cs⟩ = jsTrim ⟨cs⟩
  unfold jsTrim
  have : (' ' :: cs).dropWhile (·.isWhitespace) = cs.dropWhile (·.isWhitespace) := by
    rw [List.dropWhile_cons]
    simp
  rw [this]

theorem splitTrimFilter_cons_space (cs : List Char) :
    (((splitOnChar ',' (' ' :: cs)).map (fun p => jsTrim ⟨p⟩)).filter (· ≠ "")) =
      (((splitOnChar ',' cs).map (fun p => jsTrim ⟨p⟩)).filter (· ≠ "")) := by
  rw [splitOnChar]
  simp only [if_neg (by decide : ¬(' ' = ','))]
  cases hsp : splitOnChar ',' cs with
  | nil => exact absurd hsp (splitOnChar_ne_nil ',' cs)
  | cons r rs =>
    simp only [List.map_cons, List.filter_cons, jsTrim_mk_cons_space]

theorem string_append_data (a b : String) : (a ++ b).data = a.data ++ b.data := rfl

theorem parseTags_joinWithSep (ts : List String) (h : ∀ t ∈ ts, TagNormal t) :
    parseTags (joinWithSep ", " ts) = ts := by
  induction ts with
  | nil => rfl
  | cons t rest ih =>
    have hmk : (⟨t.data⟩ : String) = t := rfl
    obtain ⟨hne, hnc, htr⟩ := h t (List.mem_cons_self t rest)
    cases rest with
    | nil =>
      rw [joinWithSep, parseTags, if_neg hne, splitOnChar_no_sep ',' t.data hnc]
      simp only [List.map_cons, List.map_nil, List.filter_cons, List.filter_nil, hmk, htr]
      simp [hne]
    | cons t' ts' =>
      have hrest : ∀ x ∈ t' :: ts', TagNormal x := fun x hx => h x (List.mem_cons_of_mem t hx)
      have ihr := ih hrest
      rw [joinWithSep]
      set j := joinWithSep ", " (t' :: ts') with hj
      have hsep : (", " : String).data = [',', ' '] := by decide
      have hdata : (t ++ ", " ++ j).data = t.data ++ ',' :: ' ' :: j.data := by
        rw [string_append_data, string_append_data, hsep]
        simp
      have hnonempty : (t ++ ", " ++ j) ≠ "" := by
        intro hcon
        have hd : (t ++ ", " ++ j).data = [] := by simp [hcon]
        rw [hdata] at hd
        simp at hd
      rw [parseTags, if_neg hnonempty, hdata,
        splitOnChar_append ',' t.data (' ' :: j.data) hnc]
      simp only [List.map_cons, List.filter_cons, hmk, htr]
      rw [splitTrimFilter_cons_space j.data]
      have hstf : ((splitOnChar ',' j.data).map (fun p => jsTrim ⟨p⟩)).filter (· ≠ "") =
          t' :: ts' := by
        by_cases hjn : j = ""
        · rw [parseTags, if_pos hjn] at ihr
          exact absurd ihr.symm (by simp)
        · rw [parseTags, if_neg hjn] at ihr
          exact ihr
      rw [hstf]
      simp [hne]

theorem splitOnChar_pieces_no_sep (sep : Char) :
    ∀ cs p, p ∈ splitOnChar sep cs → sep ∉ p := by
  intro cs
  induction cs with
  | nil =>
    intro p hp
    simp [splitOnChar] at hp
    simp [hp]
  | cons c cs ih =>
    intro p hp
    rw [splitOnChar] at hp
    by_cases hc : c = sep
    · rw [if_pos hc] at hp
      rcases List.mem_cons.mp hp with rfl | hmem
      · simp
      · exact ih p hmem
    · rw [if_neg hc] at hp
      cases hsp : splitOnChar sep cs with
      | nil => exact absurd hsp (splitOnChar_ne_nil sep cs)
      | cons r rs =>
        rw [hsp] at hp
        rcases List.mem_cons.mp hp with rfl | hmem
        · intro hin
          rcases List.mem_cons.mp hin with rfl | hr
          · exact hc rfl
          · exact ih r (hsp ▸ List.mem_cons_self r rs) hr
        · exact ih p (hsp ▸ List.mem_cons_of_mem r hmem)

theorem dropWhile_head_false (p : Char → Bool) :
    ∀ (l : List Char) (c : Char) (cs : List Char), l.dropWhile p = c :: cs → p c = false := by
  intro l
  induction l with
  | nil => intro c cs h; simp [List.dropWhile] at h
  | cons x xs ih =>
    intro c cs h
    rw [List.dropWhile_cons] at h
    by_cases hx : p x
    · rw [if_pos hx] at h
      exact ih c cs h
    · rw [if_neg hx] at h
      cases h
      exact Bool.of_not_eq_true hx

theorem dropWhile_self_of_head (p : Char → Bool) (l : List Char)
    (h : ∀ c cs, l = c :: cs → p c = false) : l.dropWhile p = l := by
  cases l with
  | nil => rfl
  | cons c cs =>
    rw [List.dropWhile_cons, if_neg (by simp [h c cs rfl])]

theorem dropWhile_idem (p : Char → Bool) (l : List Char) :
    (l.dropWhile p).dropWhile p = l.dropWhile p := by
  apply dropWhile_self_of_head
  intro c cs h
  exact dropWhile_head_false p l c cs h

theorem mem_of_mem_dropWhile (p : Char → Bool) (l : List Char) (c : Char)
    (h : c ∈ l.dropWhile p) : c ∈ l := by
  induction l with
  | nil => simp [List.dropWhile] at h
  | cons x xs ih =>
    rw [List.dropWhile_cons] at h
    by_cases hx : p x
    · rw [if_pos hx] at h
      exact List.mem_cons_of_mem x (ih h)
    · rw [if_neg hx] at h
      exact h

theorem jsTrim_data_subset (s : String) (c : Char) (h : c ∈ (jsTrim s).data) : c ∈ s.data := by
  unfold jsTrim at h
  simp only [List.mem_reverse] at h
  have h1 := mem_of_mem_dropWhile _ _ _ h
  rw [List.mem_reverse] at h1
  exact mem_of_mem_dropWhile _ _ _ h1

theorem jsTrim_idem (s : String) : jsTrim (jsTrim s) = jsTrim s := by
  unfold jsTrim
  set a := s.data.dropWhile (·.isWhitespace) with ha
  set b := (a.reverse.dropWhile (·.isWhitespace)).reverse with hb
  have hbrev : b.reverse = a.reverse.dropWhile (·.isWhitespace) := by
    rw [hb, List.reverse_reverse]
  have hstep1 : b.dropWhile (·.isWhitespace) = b := by
    apply dropWhile_self_of_head
    intro c cs hbc
    have hpre : b <+: a := by
      have hsuf : a.reverse.dropWhile (·.isWhitespace) <:+ a.reverse := List.dropWhile_suffix _
      rw [← hbrev] at hsuf
      exact List.reverse_suffix.mp hsuf
    obtain ⟨u, hu⟩ := hpre
    rw [hbc] at hu
    exact dropWhile_head_false _ s.data c (cs ++ u) (by rw [← ha, ← hu, List.cons_append])
  rw [show ({ data := b } : String).data = b from rfl, hstep1, hbrev,
    dropWhile_idem, ← hbrev, List.reverse_reverse]

theorem parseTags_normal (s : String) : ∀ t ∈ parseTags s, TagNormal t := by
  intro t ht
  rw [parseTags] at ht
  by_cases hs : s = ""
  · rw [if_pos hs] at ht; simp at ht
  · rw [if_neg hs] at ht
    have hfilter := List.of_mem_filter ht
    have hmem := List.mem_of_mem_filter ht
    obtain ⟨p, hp, rfl⟩ := List.mem_map.mp hmem
    refine ⟨by simpa using hfilter, ?_, jsTrim_idem _⟩
    intro hcomma
    exact splitOnChar_pieces_no_sep ',' s.data p hp (jsTrim_data_subset _ _ hcomma)

theorem parseTags_buildTagString (tags : List String) (h : ∀ t ∈ tags, TagNormal t) :
    parseTags (buildTagString tags) = dedupeFirst tags := by
  rw [buildTagString]
  apply parseTags_joinWithSep
  intro t ht
  exact h t ((mem_dedupeFirst t tags).mp ht)

/-- The normalized POD tag enumeration of the specification. -/
def podTagEnum : List String :=
  ["POD: in production", "POD: printing", "POD: shipped", "POD: delivered",
    "POD: cancelled at supplier", "POD: supplier error", "POD: unknown SKU",
    "POD: refunded", "POD: on hold"]

/-! ## Claim C4: the status projection against the reference policy -/

theorem syncSweepGo_eq (projectApplied : PrintotecaOrder → Bool)
    (orders : List PrintotecaOrder) :
    syncSweepGo projectApplied orders =
      (orders.countP projectApplied, orders.countP (fun o => !projectApplied o),
        orders.length / 50 + 1) := by
  induction orders using syncSweepGo.induct projectApplied with
  | case1 orders h =>
    have hnil : orders = [] := by
      have := List.length_take 50 orders
      rw [h] at this
      exact List.eq_nil_of_length_eq_zero (by omega)
    subst hnil
    simp [syncSweepGo]
  | case2 orders h1 h2 =>
    have hlt : orders.length < 50 := by
      have := List.length_take 50 orders
      omega
    have htake : orders.take 50 = orders := List.take_of_length_le (by omega)
    rw [syncSweepGo, if_neg h1, if_pos h2, htake]
    have : orders.length / 50 = 0 := Nat.div_eq_of_lt hlt
    simp [this]
  | case3 orders h1 h2 ih =>
    rw [syncSweepGo, if_neg h1, if_neg h2, ih]
    have hsplit : orders.take 50 ++ orders.drop 50 = orders := List.take_append_drop _ _
    simp only [Prod.mk.injEq]
    refine ⟨?_, ?_, ?_⟩
    · conv_rhs => rw [← hsplit]
      rw [List.countP_append]
    · conv_rhs => rw [← hsplit]
      rw [List.countP_append]
    · have hge : 50 ≤ orders.length := by
        have := List.length_take 50 orders
        simp at h2
        omega
      have hd : (orders.drop 50).length = orders.length - 50 := List.length_drop _ _
      rw [hd]
      omega

/-- C4: `mapPrintotecaStatusToPodTag` equals the specification's
reference policy as a pure function of (status, tracking presence, ship
timestamp, now) — refunded and on-hold first, the shipping branch with a
delivered/shipped split at the configured window (boundary included),
then the printing and in-production status groups, else no tag; and at a
ship timestamp exactly the window before `now` the projection says
`POD: delivered`, while one second before that boundary it says
`POD: shipped`. -/
theorem mapStatus_eq_specPolicy :
    (∀ (windowDays : ℚ) (now : Int) (o : PrintotecaOrder),
      mapPrintotecaStatusToPodTag windowDays now o =
        specPodTagPolicy windowDays now (jsToLower o.status)
          ((o.shipping.getD emptyPrintotecaShipping).trackingNumber != "")
          ((o.shipping.getD emptyPrintotecaShipping).shiped_at.orElse
            (fun _ => (o.shipping.getD emptyPrintotecaShipping).shipped_at))) ∧
    mapPrintotecaStatusToPodTag 14 (14 * 86400000)
      ⟨"P1", none, none, "printing", some ⟨"TN123", some 0, none⟩, none⟩ =
        some "POD: delivered" ∧
    mapPrintotecaStatusToPodTag 14 (14 * 86400000 - 1000)
      ⟨"P1", none, none, "printing", some ⟨"TN123", some 0, none⟩, none⟩ =
        some "POD: shipped" := by
  refine ⟨fun w now o => rfl, ?_, ?_⟩
  · simp [mapPrintotecaStatusToPodTag, emptyPrintotecaShipping, jsToLower, charToLower]
    norm_num
  · simp [mapPrintotecaStatusToPodTag, emptyPrintotecaShipping, jsToLower, charToLower]
    norm_num

/-- C6: the bulk reconciliation sweep processes every supplier order of
the window — `synced` counts exactly the orders whose projection
succeeded and `errors` exactly those whose projection threw, so no
order's failure stops its page or later pages — and pagination with the
fixed page size 50 fetches `length/50 + 1` pages: every page before the
last is exactly full, and the last fetched page (the first one shorter
than the page size) terminates the loop. -/
theorem sweep_counts_and_pagination (projectApplied : PrintotecaOrder → Bool)
    (orders : List PrintotecaOrder) :
    syncRecentPrintotecaOrders projectApplied orders =
      (orders.countP projectApplied, orders.countP (fun o => !projectApplied o),
        orders.length / 50 + 1) ∧
    ((orders.drop ((orders.length / 50) * 50)).take 50).length < 50 ∧
    (∀ k, k < orders.length / 50 → ((orders.drop (k * 50)).take 50).length = 50) := by
  refine ⟨syncSweepGo_eq projectApplied orders, ?_, ?_⟩
  · simp only [List.length_take, List.length_drop]
    omega
  · intro k hk
    simp only [List.length_take, List.length_drop]
    omega

/-! ## Concrete fixtures for witnesses and counterexamples -/

def exampleShop : ShopifyEnv := ⟨true, true⟩

def exampleConfig : PrintotecaConfig :=
  { maxAttempts := 5, retryDelayMs := 300000, brandName := some "HugsAndMugs",
    defaultShippingMethod := none, validSkus := [] }

def exampleItemA : LineItem :=
  { sku := "STTU755-WHITE-S", title := "Tee", variant_title := "White / S", quantity := 2,
    price := "79.00", properties := [⟨"_tib_design_link", "https://cdn.example.com/d1.png"⟩] }

def exampleItemNoSku : LineItem :=
  { sku := "", title := "Mug", variant_title := "", quantity := 1, price := "49.00",
    properties := [] }

/-- An order whose only line item has no SKU (no fulfillable items). -/
def orderNoSkuOnly : ShopifyOrder :=
  { id := "9002", phone := "", line_items := [exampleItemNoSku],
    shipping_address := none, billing_address := none }

/-- An order with one valid line item. -/
def exampleOrderValid : ShopifyOrder :=
  { id := "9001", phone := "", line_items := [exampleItemA],
    shipping_address := none, billing_address := none }

/-- An order mixing one SKU-less (invalid) and one valid line item. -/
def exampleOrderMixed : ShopifyOrder :=
  { id := "9003", phone := "", line_items := [exampleItemNoSku, exampleItemA],
    shipping_address := none, billing_address := none }

/-- Supplier environment whose create call always succeeds with id `P777`. -/
def envCreateOk : CreateEnv := ⟨fun _ _ => .ok (some "P777"), exampleShop⟩

/-- Supplier environment whose create call always fails with a message
that does not match the asset-not-ready signature. -/
def envCreateBoom : CreateEnv := ⟨fun _ _ => .error "boom", exampleShop⟩

/-- A Shopify state that already carries a supplier linkage. -/
def statePriorLinkage : ShopState := ⟨"", [], some "OLD-42"⟩

/-! ## Claim C8: no valid items, no create call -/

/-- C8: when SKU validation filters out every line item, `submit` returns
the no-items outcome, makes no `SupplierOrders.create` call, and leaves
the Shopify order untouched. -/
theorem submit_no_valid_items_no_create (cfg : PrintotecaConfig) (env : CreateEnv)
    (order : ShopifyOrder) (s : ShopState)
    (h : (splitValidInvalidPrintotecaLineItems cfg order).1 = []) :
    sendOrderToPrintoteca cfg env order s =
      { state := s, createCalls := 0, sleeps := 0, outcome := .noItems } := by
  simp [sendOrderToPrintoteca, h]

/-- C8 witness: an order whose single line item has no SKU takes the
no-items path with zero create calls. -/
theorem submit_no_valid_items_no_create_witness :
    sendOrderToPrintoteca exampleConfig envCreateOk orderNoSkuOnly ⟨"", [], none⟩ =
      { state := ⟨"", [], none⟩, createCalls := 0, sleeps := 0, outcome := .noItems } :=
  submit_no_valid_items_no_create exampleConfig envCreateOk orderNoSkuOnly ⟨"", [], none⟩
    (by decide)

/-! ## Claim C1: the missing idempotency check -/

/-- C1 (amended): `sendOrderToPrintoteca` never reads the
`pod.printoteca_order_id` metafield.  Whatever linkage is already stored,
an order with at least one valid line item whose first create attempt
succeeds produces exactly one `SupplierOrders.create` call, the `created`
outcome, and the metafield overwritten with the new supplier id — there
is no `already_exists` short circuit. -/
theorem submit_ignores_existing_linkage (cfg : PrintotecaConfig) (env : CreateEnv)
    (order : ShopifyOrder) (tagString : String) (notes : List String)
    (priorLinkage : Option String) (pid : String)
    (hvalid : (splitValidInvalidPrintotecaLineItems cfg order).1 ≠ [])
    (hmax : 1 ≤ cfg.maxAttempts)
    (hcreate : env.create 1 (finalizePrintotecaPayload cfg order
      (some (splitValidInvalidPrintotecaLineItems cfg order).1)) = .ok (some pid)) :
    (sendOrderToPrintoteca cfg env order ⟨tagString, notes, priorLinkage⟩).createCalls = 1 ∧
    (sendOrderToPrintoteca cfg env order ⟨tagString, notes, priorLinkage⟩).outcome = .sent pid ∧
    (sendOrderToPrintoteca cfg env order
      ⟨tagString, notes, priorLinkage⟩).state.printotecaOrderId = some pid := by
  obtain ⟨m, hm⟩ : ∃ m, cfg.maxAttempts = m + 1 := ⟨cfg.maxAttempts - 1, by omega⟩
  have hne : (splitValidInvalidPrintotecaLineItems cfg order).1.isEmpty = false := by
    cases hsp : (splitValidInvalidPrintotecaLineItems cfg order).1 with
    | nil => exact absurd hsp hvalid
    | cons a l => simp
  refine ⟨?_, ?_, ?_⟩ <;>
    simp [sendOrderToPrintoteca, hne, sendOrderToPrintotecaWithRetry, hm, sendAttempts,
      hcreate, setPrintotecaOrderIdMetafield]

/-- C1 counterexample: with the linkage metafield already set to
`OLD-42`, a repeated `submit` still calls `SupplierOrders.create` (once),
ends `created` with the fresh supplier id, and overwrites the linkage —
it does not short-circuit to `already_exists` with no create call. -/
theorem submit_creates_despite_linkage_counterexample :
    statePriorLinkage.printotecaOrderId = some "OLD-42" ∧
    (sendOrderToPrintoteca exampleConfig envCreateOk exampleOrderValid
      statePriorLinkage).createCalls = 1 ∧
    (sendOrderToPrintoteca exampleConfig envCreateOk exampleOrderValid
      statePriorLinkage).outcome = .sent "P777" ∧
    (sendOrderToPrintoteca exampleConfig envCreateOk exampleOrderValid
      statePriorLinkage).state.printotecaOrderId = some "P777" := by
  decide

/-- C1 witness: the amended statement applied at the counterexample's
input. -/
theorem submit_ignores_existing_linkage_witness :
    (sendOrderToPrintoteca exampleConfig envCreateOk exampleOrderValid
      ⟨"", [], some "OLD-42"⟩).createCalls = 1 ∧
    (sendOrderToPrintoteca exampleConfig envCreateOk exampleOrderValid
      ⟨"", [], some "OLD-42"⟩).outcome = .sent "P777" ∧
    (sendOrderToPrintoteca exampleConfig envCreateOk exampleOrderValid
      ⟨"", [], some "OLD-42"⟩).state.printotecaOrderId = some "P777" :=
  submit_ignores_existing_linkage exampleConfig envCreateOk exampleOrderValid "" []
    (some "OLD-42") "P777" (by decide) (by decide) (by decide)

/-! ## Claim C2: the retry scheduling policy

The inner loop of `src/printoteca.js` retries every failure below the
ceiling, whatever the message; the signature classification lives only in
the driver of `src/index.js`; terminal exhaustion surfaces the
supplier-error tag and note. -/

theorem sendAttempts_all_fail (env : CreateEnv) (payload : PrintotecaPayload)
    (hfail : ∀ a pid, env.create a payload ≠ .ok (some pid)) :
    ∀ fuel attempt s calls sleeps, 1 ≤ fuel →
      ∃ lastMsg, sendAttempts env payload fuel attempt s calls sleeps =
        { state := handlePrintotecaSupplierError env.shop s lastMsg,
          createCalls := calls + fuel, sleeps := sleeps + (fuel - 1),
          result := .error lastMsg } := by
  intro fuel
  induction fuel with
  | zero => intro _ _ _ _ h; omega
  | succ f ih =>
    intro attempt s calls sleeps _
    have hm : ∃ m, (match env.create attempt payload with
        | .ok (some pid) => Except.ok pid
        | .ok none => Except.error noIdMessage
        | .error msg => Except.error msg) = (Except.error m : Except String String) := by
      cases hc : env.create attempt payload with
      | ok v =>
        cases v with
        | some pid => exact absurd hc (hfail attempt pid)
        | none => exact ⟨noIdMessage, rfl⟩
      | error m => exact ⟨m, rfl⟩
    obtain ⟨m, hm⟩ := hm
    rw [sendAttempts]
    simp only [hm]
    by_cases hf : f = 0
    · subst hf
      exact ⟨m, by simp⟩
    · rw [if_neg hf]
      obtain ⟨m', hm'⟩ := ih (attempt + 1) s (calls + 1) (sleeps + 1) (by omega)
      refine ⟨m', ?_⟩
      rw [hm']
      have h1 : calls + 1 + f = calls + (f + 1) := by omega
      have h2 : sleeps + 1 + (f - 1) = sleeps + (f + 1 - 1) := by omega
      rw [h1, h2]

theorem addOrderTag_mem (s : ShopState) (tag : String) (htag : TagNormal tag) :
    tag ∈ parseTags (addOrderTag s tag).tagString := by
  show tag ∈ parseTags (buildTagString (addOrderTagTags (parseTags s.tagString) tag))
  rw [parseTags_buildTagString]
  · rw [mem_dedupeFirst]
    unfold addOrderTagTags
    by_cases h : tag ∈ parseTags s.tagString
    · simp [h]
    · simp [h]
  · intro t ht
    unfold addOrderTagTags at ht
    by_cases h : tag ∈ parseTags s.tagString
    · rw [if_pos h] at ht
      exact parseTags_normal _ t ht
    · rw [if_neg h] at ht
      rcases List.mem_append.mp ht with h1 | h1
      · exact parseTags_normal _ t h1
      · simp at h1
        subst h1
        exact htag

theorem handleSupplierError_tagString (shop : ShopifyEnv) (s : ShopState) (msg : String)
    (h : shop.tagOk = true) :
    (handlePrintotecaSupplierError shop s msg).tagString =
      (addOrderTag s "POD: supplier error").tagString := by
  unfold handlePrintotecaSupplierError
  rw [h]
  by_cases hn : shop.noteOk <;> simp [hn, appendOrderNote]

theorem handleSupplierError_tag_mem (shop : ShopifyEnv) (s : ShopState) (msg : String)
    (h : shop.tagOk = true) :
    "POD: supplier error" ∈
      parseTags (handlePrintotecaSupplierError shop s msg).tagString := by
  rw [handleSupplierError_tagString shop s msg h]
  exact addOrderTag_mem s "POD: supplier error" (by decide)

theorem handleSupplierError_note_mem (shop : ShopifyEnv) (s : ShopState) (msg : String)
    (h : shop.noteOk = true) :
    ("Printoteca error: " ++ msg) ∈ (handlePrintotecaSupplierError shop s msg).notes := by
  unfold handlePrintotecaSupplierError
  rw [h]
  by_cases ht : shop.tagOk <;> simp [ht, appendOrderNote, addOrderTag]

theorem retry_scheduling_policy (inner : Nat → Except String Unit) (attempt r : Nat)
    (msg : String) (env : CreateEnv) (payload : PrintotecaPayload) :
    (inner attempt = .error msg → jsIncludes msg designNotReadySignature = false →
      indexRetryGo inner r attempt = ⟨1, 0, some msg⟩) ∧
    (inner attempt = .error msg →
      indexRetryGo inner 0 attempt = ⟨1, 0, some msg⟩) ∧
    (inner attempt = .error msg → jsIncludes msg designNotReadySignature = true →
      indexRetryGo inner (r + 1) attempt =
        ⟨(indexRetryGo inner r (attempt + 1)).attemptsMade + 1,
          (indexRetryGo inner r (attempt + 1)).retriesScheduled + 1,
          (indexRetryGo inner r (attempt + 1)).finalError⟩) ∧
    ((∀ a pid, env.create a payload ≠ .ok (some pid)) →
      ∀ fuel s calls sleeps, 1 ≤ fuel →
        ∃ lastMsg, sendAttempts env payload fuel attempt s calls sleeps =
          { state := handlePrintotecaSupplierError env.shop s lastMsg,
            createCalls := calls + fuel, sleeps := sleeps + (fuel - 1),
            result := .error lastMsg }) ∧
    (∀ (m : String) (s : ShopState), env.shop.tagOk = true →
      "POD: supplier error" ∈
        parseTags (handlePrintotecaSupplierError env.shop s m).tagString) ∧
    (∀ (m : String) (s : ShopState), env.shop.noteOk = true →
      ("Printoteca error: " ++ m) ∈ (handlePrintotecaSupplierError env.shop s m).notes) := by
  refine ⟨?_, ?_, ?_, ?_, ?_, ?_⟩
  · intro hinner hnomatch
    cases r with
    | zero => rw [indexRetryGo, hinner]
    | succ r' =>
      rw [indexRetryGo, hinner]
      simp only [hnomatch, Bool.false_eq_true, if_false]
  · intro hinner
    rw [indexRetryGo, hinner]
  · intro hinner hmatch
    rw [indexRetryGo, hinner]
    simp only [hmatch, if_true]
  · intro hfail fuel s calls sleeps hfuel
    exact sendAttempts_all_fail env payload hfail fuel attempt s calls sleeps hfuel
  · intro m s h
    exact handleSupplierError_tag_mem env.shop s m h
  · intro m s h
    exact handleSupplierError_note_mem env.shop s m h

theorem retry_on_non_transient_error_counterexample :
    jsIncludes "boom" designNotReadySignature = false ∧
    (sendOrderToPrintoteca exampleConfig envCreateBoom exampleOrderValid
      ⟨"", [], none⟩).createCalls = 5 ∧
    (sendOrderToPrintoteca exampleConfig envCreateBoom exampleOrderValid
      ⟨"", [], none⟩).sleeps = 4 ∧
    (sendOrderToPrintoteca exampleConfig envCreateBoom exampleOrderValid
      ⟨"", [], none⟩).outcome = .failed "boom" := by
  decide

theorem retry_scheduling_policy_witness :
    indexRetryGo (fun _ => .error "other failure") 3 1 = ⟨1, 0, some "other failure"⟩ ∧
    indexRetryGo (fun _ => .error "Design url is not valid") 0 2 =
      ⟨1, 0, some "Design url is not valid"⟩ :=
  ⟨(retry_scheduling_policy (fun _ => .error "other failure") 1 3 "other failure"
      envCreateBoom (finalizePrintotecaPayload exampleConfig exampleOrderValid none)).1
      rfl (by decide),
    (retry_scheduling_policy (fun _ => .error "Design url is not valid") 2 0
      "Design url is not valid" envCreateBoom
      (finalizePrintotecaPayload exampleConfig exampleOrderValid none)).2.1 rfl⟩

/-! ## Claims C3 and C10: the POD tag family on the tag string -/

theorem dedupeSeen_sublist : ∀ (l seen : List String), (dedupeSeen seen l).Sublist l := by
  intro l
  induction l with
  | nil => intro seen; simp [dedupeSeen]
  | cons x xs ih =>
    intro seen
    by_cases hx : x ∈ seen
    · rw [dedupeSeen, if_pos hx]
      exact (ih seen).cons x
    · rw [dedupeSeen, if_neg hx]
      exact (ih (x :: seen)).cons₂ x

theorem dedupeFirst_sublist (l : List String) : (dedupeFirst l).Sublist l :=
  dedupeSeen_sublist l []

theorem podTagEnum_normal (t : String) (h : t ∈ podTagEnum) : TagNormal t := by
  simp [podTagEnum] at h
  rcases h with rfl | rfl | rfl | rfl | rfl | rfl | rfl | rfl | rfl <;> decide

theorem parseTags_replacePodStatusTag (s : ShopState) (newPodTag : Option String)
    (hn : ∀ t, newPodTag = some t → TagNormal t) :
    parseTags (replacePodStatusTag s newPodTag).tagString =
      dedupeFirst (replacePodStatusTagTags (parseTags s.tagString) newPodTag) := by
  show parseTags (buildTagString _) = _
  apply parseTags_buildTagString
  intro t ht
  unfold replacePodStatusTagTags at ht
  cases newPodTag with
  | none =>
    simp only at ht
    exact parseTags_normal _ t (List.mem_of_mem_filter ht)
  | some nt =>
    simp only at ht
    rcases List.mem_append.mp ht with h1 | h1
    · exact parseTags_normal _ t (List.mem_of_mem_filter h1)
    · simp at h1
      subst h1
      exact hn t rfl

/-- C3 (amended): the status projection's write operation
`replacePodStatusTag` maintains the at-most-one invariant — after it
writes an enumeration member, the only `POD:`-prefixed tag on the order
is the new one, so at most one enumeration member is present; but the
`addOrderTag`-based writers (`POD: unknown SKU`, `POD: supplier error`,
`POD: cancelled at supplier`) do not strip prior members, so states with
two members are reachable (see the counterexample). -/
theorem replacePodStatusTag_single_pod_tag (s : ShopState) (newTag : String)
    (h : newTag ∈ podTagEnum) :
    (∀ t ∈ parseTags (replacePodStatusTag s (some newTag)).tagString,
      jsStartsWith t "POD:" = true → t = newTag) ∧
    (parseTags (replacePodStatusTag s (some newTag)).tagString).countP
      (fun t => jsStartsWith t "POD:") ≤ 1 := by
  have hnorm : TagNormal newTag := podTagEnum_normal newTag h
  have heq := parseTags_replacePodStatusTag s (some newTag)
    (fun t ht => by cases ht; exact hnorm)
  rw [heq]
  have honly : ∀ t ∈ dedupeFirst (replacePodStatusTagTags (parseTags s.tagString)
      (some newTag)), jsStartsWith t "POD:" = true → t = newTag := by
    intro t ht hpod
    have := (mem_dedupeFirst t _).mp ht
    unfold replacePodStatusTagTags at this
    simp only at this
    rcases List.mem_append.mp this with h1 | h1
    · have := List.of_mem_filter h1
      simp [hpod] at this
    · simpa using h1
  refine ⟨honly, ?_⟩
  rw [List.countP_eq_length_filter]
  have hnd : (dedupeFirst (replacePodStatusTagTags (parseTags s.tagString)
      (some newTag))).Nodup := dedupeFirst_nodup _
  have hfilter_nd := List.Nodup.filter (fun t => jsStartsWith t "POD:") hnd
  cases hfl : (dedupeFirst (replacePodStatusTagTags (parseTags s.tagString)
      (some newTag))).filter (fun t => jsStartsWith t "POD:") with
  | nil => simp
  | cons a l =>
    cases l with
    | nil => simp
    | cons b l' =>
      exfalso
      have ha : a = newTag := honly a
        (List.mem_of_mem_filter (hfl ▸ List.mem_cons_self a (b :: l')))
        (by
          have := List.of_mem_filter (hfl ▸ List.mem_cons_self a (b :: l'))
          simpa using this)
      have hbmem : b ∈ (dedupeFirst _).filter (fun t => jsStartsWith t "POD:") :=
        hfl ▸ List.mem_cons_of_mem a (List.mem_cons_self b l')
      have hb : b = newTag := honly b (List.mem_of_mem_filter hbmem)
        (by simpa using List.of_mem_filter hbmem)
      rw [hfl] at hfilter_nd
      have := List.nodup_cons.mp hfilter_nd
      exact this.1 (by rw [ha, hb]; exact List.mem_cons_self _ _)

/-- C3 counterexample: a reachable state with two enumeration members.
An order with one SKU-less and one valid line item whose create attempts
all fail ends with both `POD: unknown SKU` and `POD: supplier error` on
its tag set. -/
theorem two_pod_tags_reachable_counterexample :
    "POD: unknown SKU" ∈ parseTags (sendOrderToPrintoteca exampleConfig envCreateBoom
      exampleOrderMixed ⟨"", [], none⟩).state.tagString ∧
    "POD: supplier error" ∈ parseTags (sendOrderToPrintoteca exampleConfig envCreateBoom
      exampleOrderMixed ⟨"", [], none⟩).state.tagString ∧
    (parseTags (sendOrderToPrintoteca exampleConfig envCreateBoom exampleOrderMixed
      ⟨"", [], none⟩).state.tagString).countP (fun t => decide (t ∈ podTagEnum)) = 2 := by
  decide

/-- C3 witness: the amended statement applied after replacing the status
tag on an order carrying two stale POD tags. -/
theorem replacePodStatusTag_single_pod_tag_witness :
    (∀ t ∈ parseTags (replacePodStatusTag
        ⟨"rush order, POD: printing, POD: unknown SKU", [], none⟩
        (some "POD: shipped")).tagString,
      jsStartsWith t "POD:" = true → t = "POD: shipped") ∧
    (parseTags (replacePodStatusTag
        ⟨"rush order, POD: printing, POD: unknown SKU", [], none⟩
        (some "POD: shipped")).tagString).countP
      (fun t => jsStartsWith t "POD:") ≤ 1 :=
  replacePodStatusTag_single_pod_tag
    ⟨"rush order, POD: printing, POD: unknown SKU", [], none⟩ "POD: shipped" (by decide)

/-- C10: `replacePodStatusTag` preserves every tag outside the `POD:`
family — each non-POD tag of the stored tag string survives the write —
and the tag string it writes has no duplicate entries. -/
theorem replacePodStatusTag_frame (s : ShopState) (newPodTag : Option String)
    (h : newPodTag = none ∨ ∃ t, newPodTag = some t ∧ t ∈ podTagEnum) :
    (∀ t ∈ parseTags s.tagString, jsStartsWith t "POD:" = false →
      t ∈ parseTags (replacePodStatusTag s newPodTag).tagString) ∧
    (parseTags (replacePodStatusTag s newPodTag).tagString).Nodup := by
  have hn : ∀ t, newPodTag = some t → TagNormal t := by
    intro t ht
    rcases h with rfl | ⟨u, hu, hmem⟩
    · cases ht
    · rw [hu] at ht
      injection ht with h2
      subst h2
      exact podTagEnum_normal _ hmem
  have heq := parseTags_replacePodStatusTag s newPodTag hn
  rw [heq]
  constructor
  · intro t ht hnotpod
    rw [mem_dedupeFirst]
    unfold replacePodStatusTagTags
    have hkept : t ∈ (parseTags s.tagString).filter (fun tag => !jsStartsWith tag "POD:") :=
      List.mem_filter.mpr ⟨ht, by simp [hnotpod]⟩
    cases newPodTag with
    | none => simpa using hkept
    | some nt => simp only []; exact List.mem_append.mpr (Or.inl hkept)
  · exact dedupeFirst_nodup _

/-- C10 witness: the frame statement applied at a concrete tag string. -/
theorem replacePodStatusTag_frame_witness :
    (∀ t ∈ parseTags (⟨"rush order, gift wrap, POD: printing", [], none⟩ : ShopState).tagString,
      jsStartsWith t "POD:" = false →
      t ∈ parseTags (replacePodStatusTag ⟨"rush order, gift wrap, POD: printing", [], none⟩
        (some "POD: delivered")).tagString) ∧
    (parseTags (replacePodStatusTag ⟨"rush order, gift wrap, POD: printing", [], none⟩
      (some "POD: delivered")).tagString).Nodup :=
  replacePodStatusTag_frame ⟨"rush order, gift wrap, POD: printing", [], none⟩
    (some "POD: delivered") (Or.inr ⟨"POD: delivered", rfl, by decide⟩)

/-! ## Claim C5: design-asset extraction; Claim C7: cancellation containment -/

def twoDesignItem : LineItem :=
  { sku := "STTU755-WHITE-M", title := "Tee", variant_title := "", quantity := 1,
    price := "59.00",
    properties := [⟨"_tib_design_link", "https://cdn.example.com/front.png"⟩,
      ⟨"_tib_design_link", "https://cdn.example.com/back.png"⟩] }

theorem find?_append_of_none {α : Type} (pred : α → Bool) :
    ∀ (pre rest : List α), (∀ q ∈ pre, pred q = false) →
      List.find? pred (pre ++ rest) = List.find? pred rest := by
  intro pre
  induction pre with
  | nil => intro rest _; rfl
  | cons q pre ih =>
    intro rest h
    rw [List.cons_append, List.find?_cons,
      h q (List.mem_cons_self q pre)]
    exact ih rest (fun x hx => h x (List.mem_cons_of_mem q hx))

/-- C5 (amended): design extraction scans for the exact reserved key
`_tib_design_link`; the first property with that name and a non-empty
value supplies the `front` placement of the outbound item, later
occurrences are ignored, and no `back` placement is ever produced; with
no matching property the outbound item carries no design reference. -/
theorem design_extraction_first_match_front_only (li : LineItem) :
    ((buildPayloadItem li).designs = none ↔ extractTeeinblueDesignLink li = none) ∧
    (∀ url, extractTeeinblueDesignLink li = some url →
      (buildPayloadItem li).designs = some ⟨some url, none⟩) ∧
    (∀ d, (buildPayloadItem li).designs = some d → d.back = none) ∧
    (∀ pre p post, li.properties = pre ++ p :: post →
      (p.name == "_tib_design_link" && p.value != "") = true →
      (∀ q ∈ pre, (q.name == "_tib_design_link" && q.value != "") = false) →
      extractTeeinblueDesignLink li = some p.value) := by
  refine ⟨?_, ?_, ?_, ?_⟩
  · unfold buildPayloadItem
    cases h : extractTeeinblueDesignLink li <;> simp [h]
  · intro url h
    unfold buildPayloadItem
    rw [h]
    rfl
  · intro d hd
    unfold buildPayloadItem at hd
    cases h : extractTeeinblueDesignLink li with
    | none => rw [h] at hd; simp at hd
    | some url =>
      rw [h] at hd
      simp at hd
      rw [← hd]
  · intro pre p post hprops hp hpre
    unfold extractTeeinblueDesignLink
    rw [hprops, find?_append_of_none _ pre (p :: post) hpre, List.find?_cons, hp]
    rfl

/-- C5 counterexample: a line item carrying the reserved key twice.  The
outbound item's designs hold only the first URL as `front`; the claim's
prediction — the second occurrence mapped to `back` — is false. -/
theorem design_second_occurrence_not_back_counterexample :
    (buildPayloadItem twoDesignItem).designs =
      some ⟨some "https://cdn.example.com/front.png", none⟩ ∧
    ¬ (buildPayloadItem twoDesignItem).designs =
      some ⟨some "https://cdn.example.com/front.png",
        some "https://cdn.example.com/back.png"⟩ := by
  decide

/-! C7 block -/

/-- A cancellation environment whose metafield read throws. -/
def cancelEnvMetafieldFail : CancelEnv :=
  ⟨.error "ECONNRESET", .error "unused", .ok (), exampleShop⟩

/-- A cancellation environment with no linkage metafield. -/
def cancelEnvNoLinkage : CancelEnv :=
  ⟨.ok none, .error "unused", .ok (), exampleShop⟩

theorem cancelDeleteBlock_escaped (env : CancelEnv) (s : ShopState) (pid : String) :
    (cancelPrintotecaOrderFromShopifyOrderId.cancelDeleteBlock env s pid).escaped = none := by
  unfold cancelPrintotecaOrderFromShopifyOrderId.cancelDeleteBlock
  cases env.deleteResult with
  | ok u => by_cases ht : env.shop.tagOk <;> by_cases hn : env.shop.noteOk <;> simp [ht, hn]
  | error e => simp

/-- C7 (amended): with the storefront primitives outside the guarded
delete block succeeding (metafield read, note appends), cancellation
never raises: supplier fetch and delete failures are swallowed inside the
`try`/`catch` and surfaced as tag + note; and with no linkage metafield
the informational note is appended, no `SupplierOrders.delete` call is
made, and the function returns normally.  (A failing storefront call
outside that block does escape — see the counterexample.) -/
theorem cancel_contained (env : CancelEnv) (s : ShopState) (mo : Option String)
    (hmf : env.metafield = .ok mo) (hnote : env.shop.noteOk = true) :
    (cancelPrintotecaOrderFromShopifyOrderId env s).escaped = none ∧
    (mo = none → cancelPrintotecaOrderFromShopifyOrderId env s =
      { state := appendOrderNote s cancelNoLinkageNote, deleteCalls := 0, escaped := none }) := by
  unfold cancelPrintotecaOrderFromShopifyOrderId
  rw [hmf]
  cases mo with
  | none =>
    rw [hnote]
    exact ⟨by simp, fun _ => by simp⟩
  | some pid =>
    refine ⟨?_, fun h => by cases h⟩
    cases hshipped : ((match env.fetchOrder with
        | .ok o => some o
        | .error _ => none : Option PrintotecaOrder).bind (·.shipping)).bind
          (·.shiped_at) with
    | none => simp [hshipped, cancelDeleteBlock_escaped]
    | some t => simp [hshipped, hnote, cancelDeleteBlock_escaped]

/-- C7 counterexample: a failing linkage-metafield read propagates out of
`cancelPrintotecaOrderFromShopifyOrderId` — the operation can raise past
its own boundary. -/
theorem cancel_escapes_on_metafield_failure_counterexample :
    (cancelPrintotecaOrderFromShopifyOrderId cancelEnvMetafieldFail
      ⟨"", [], none⟩).escaped = some "ECONNRESET" ∧
    (cancelPrintotecaOrderFromShopifyOrderId cancelEnvMetafieldFail
      ⟨"", [], none⟩).deleteCalls = 0 := by
  decide

/-- C7 witness: the amended statement at the no-linkage environment. -/
theorem cancel_contained_witness :
    (cancelPrintotecaOrderFromShopifyOrderId cancelEnvNoLinkage ⟨"", [], none⟩).escaped
      = none ∧
    (none = (none : Option String) →
      cancelPrintotecaOrderFromShopifyOrderId cancelEnvNoLinkage ⟨"", [], none⟩ =
        { state := appendOrderNote ⟨"", [], none⟩ cancelNoLinkageNote, deleteCalls := 0,
          escaped := none }) :=
  cancel_contained cancelEnvNoLinkage ⟨"", [], none⟩ none rfl rfl

/-! ## Claim C9: idempotent fulfillment creation -/

/-- A two-line Shopify order with no fulfillments yet. -/
def fulOrder1 : FulfillOrder := ⟨"9001", [⟨"11", "A", 2⟩, ⟨"12", "B", 1⟩], []⟩

/-- Printoteca items matching SKU `A` only. -/
def pItemsA : List PrintotecaItem := [⟨"A", 1⟩]

/-- Printoteca items matching no SKU of `fulOrder1`. -/
def pItemsUnmatched : List PrintotecaItem := [⟨"C", 1⟩]

theorem isEmpty_false_of_ne_nil {α : Type} {l : List α} (h : l ≠ []) : l.isEmpty = false := by
  cases l with
  | nil => exact absurd rfl h
  | cons a as => rfl

theorem createShopifyFulfillment_tracking (order : FulfillOrder) (tn c : String)
    (o : Option (List FulfillLine)) (f : ShopifyFulfillment)
    (h : createShopifyFulfillment order tn c o = some f) :
    f.tracking_number = some tn := by
  unfold createShopifyFulfillment at h
  by_cases he : (fulfillmentLineItems order o).isEmpty
  · rw [if_pos he] at h
    cases h
  · rw [if_neg he] at h
    injection h with h1
    rw [← h1]

/-- C9 (amended): `ensureFulfillmentWithTracking` is idempotent in the
tracking number — an existing record with the number short-circuits to
`already_exists`, and a second call right after a `created` outcome
returns `already_exists` with no new record; when a non-empty per-SKU
quantity list matches at least one line, the created fulfillment covers
exactly the matched lines, each at the minimum of the supplied quantity
and the line's ordered quantity; with no list the whole order is
fulfilled.  (When the supplied list matches no line the implementation
falls back to fulfilling the whole order — see the counterexample.) -/
theorem ensure_fulfillment_idempotent_and_matched (order : FulfillOrder)
    (tn c c2 : String) (items items2 : Option (List PrintotecaItem)) :
    (orderHasTracking order tn = true →
      ensureFulfillmentWithTracking order tn c items = (.alreadyExists, order)) ∧
    (∀ f, (ensureFulfillmentWithTracking order tn c items).1 = .created f →
      ensureFulfillmentWithTracking (ensureFulfillmentWithTracking order tn c items).2
        tn c2 items2 =
        (.alreadyExists, (ensureFulfillmentWithTracking order tn c items).2)) ∧
    (orderHasTracking order tn = false → ∀ l, l ≠ [] → matchedFulfillLines order l ≠ [] →
      ensureFulfillmentWithTracking order tn c (some l) =
        (.created ⟨[tn], some tn, c, matchedFulfillLines order l⟩,
          { order with fulfillments := order.fulfillments ++
            [⟨[tn], some tn, c, matchedFulfillLines order l⟩] })) ∧
    (∀ (l : List PrintotecaItem) (li : FulfillLineItem), li ∈ order.line_items →
      li.sku ≠ "" → skuQtyMapAt l li.sku ≠ 0 →
      min li.quantity (skuQtyMapAt l li.sku) ≠ 0 →
      (⟨li.id, min li.quantity (skuQtyMapAt l li.sku)⟩ : FulfillLine) ∈
        matchedFulfillLines order l) ∧
    (orderHasTracking order tn = false → order.line_items ≠ [] →
      ensureFulfillmentWithTracking order tn c none =
        (.created ⟨[tn], some tn, c,
            order.line_items.map (fun li => ⟨li.id, li.quantity⟩)⟩,
          { order with fulfillments := order.fulfillments ++
            [⟨[tn], some tn, c,
              order.line_items.map (fun li => ⟨li.id, li.quantity⟩)⟩] })) := by
  refine ⟨?_, ?_, ?_, ?_, ?_⟩
  · intro h
    unfold ensureFulfillmentWithTracking
    rw [if_pos h]
  · intro f hf
    by_cases hht : orderHasTracking order tn
    · unfold ensureFulfillmentWithTracking at hf
      rw [if_pos hht] at hf
      simp at hf
    · cases hcf : createShopifyFulfillment order tn c (fulfillmentOverrideOf order items) with
      | none =>
        unfold ensureFulfillmentWithTracking at hf
        rw [if_neg hht, hcf] at hf
        simp at hf
      | some f2 =>
        have htrk : f2.tracking_number = some tn :=
          createShopifyFulfillment_tracking order tn c _ f2 hcf
        have hsnd : (ensureFulfillmentWithTracking order tn c items).2 =
            { order with fulfillments := order.fulfillments ++ [f2] } := by
          unfold ensureFulfillmentWithTracking
          rw [if_neg hht, hcf]
        have hnew : orderHasTracking
            { order with fulfillments := order.fulfillments ++ [f2] } tn = true := by
          simp [orderHasTracking, htrk]
        rw [hsnd]
        unfold ensureFulfillmentWithTracking
        rw [if_pos hnew]
  · intro hht l hl hm
    unfold ensureFulfillmentWithTracking
    rw [if_neg (by simp [hht])]
    have h1 : fulfillmentOverrideOf order (some l) = some (matchedFulfillLines order l) := by
      show (if l.isEmpty = true then none else some (matchedFulfillLines order l)) =
        some (matchedFulfillLines order l)
      rw [isEmpty_false_of_ne_nil hl]
      simp
    have h2 : fulfillmentLineItems order (some (matchedFulfillLines order l)) =
        matchedFulfillLines order l := by
      show (if (matchedFulfillLines order l).isEmpty = true then
          order.line_items.map (fun li => ⟨li.id, li.quantity⟩)
        else matchedFulfillLines order l) = matchedFulfillLines order l
      rw [isEmpty_false_of_ne_nil hm]
      simp
    have h3 : createShopifyFulfillment order tn c (fulfillmentOverrideOf order (some l)) =
        some ⟨[tn], some tn, c, matchedFulfillLines order l⟩ := by
      rw [h1]
      unfold createShopifyFulfillment
      rw [h2, isEmpty_false_of_ne_nil hm]
      simp
    rw [h3]
  · intro l li hli hsku hmap hqty
    unfold matchedFulfillLines
    apply List.mem_filterMap.mpr
    refine ⟨li, hli, ?_⟩
    rw [if_neg hsku]
    simp only [if_neg hmap, if_neg hqty]
  · intro hht hne
    unfold ensureFulfillmentWithTracking
    rw [if_neg (by simp [hht])]
    have hmapne : order.line_items.map (fun li => (⟨li.id, li.quantity⟩ : FulfillLine)) ≠ [] := by
      simpa using hne
    have h3 : createShopifyFulfillment order tn c (fulfillmentOverrideOf order none) =
        some ⟨[tn], some tn, c, order.line_items.map (fun li => ⟨li.id, li.quantity⟩)⟩ := by
      unfold createShopifyFulfillment
      have h2 : fulfillmentLineItems order (fulfillmentOverrideOf order none) =
          order.line_items.map (fun li => ⟨li.id, li.quantity⟩) := rfl
      rw [h2, isEmpty_false_of_ne_nil hmapne]
      simp
    rw [h3]

theorem ensure_fulfillment_unmatched_fallback_counterexample :
    matchedFulfillLines fulOrder1 pItemsUnmatched = [] ∧
    (ensureFulfillmentWithTracking fulOrder1 "TRK1" "Printoteca" (some pItemsUnmatched)).1 =
      .created ⟨["TRK1"], some "TRK1", "Printoteca", [⟨"11", 2⟩, ⟨"12", 1⟩]⟩ := by
  decide

theorem ensure_fulfillment_idempotent_and_matched_witness :
    ensureFulfillmentWithTracking fulOrder1 "TRK1" "Printoteca" (some pItemsA) =
      (.created ⟨["TRK1"], some "TRK1", "Printoteca", matchedFulfillLines fulOrder1 pItemsA⟩,
        { fulOrder1 with fulfillments := fulOrder1.fulfillments ++
          [⟨["TRK1"], some "TRK1", "Printoteca", matchedFulfillLines fulOrder1 pItemsA⟩] }) :=
  (ensure_fulfillment_idempotent_and_matched fulOrder1 "TRK1" "Printoteca" "Printoteca"
    (some pItemsA) none).2.2.1 (by decide) pItemsA (by decide) (by decide)
